import Mathlib

/-!
Shallow embedding of the PoseRehab preprocessing pipeline
(`src/scripts/preprocess_fitness_dataset.py`, `src/ml/preprocess.py`,
`src/ml/preprocess_full.py`) and proofs of the specified properties.

Machine floats are modelled by `ℚ` where the code only uses field
operations and comparisons, and by `ℝ` where the code applies
transcendental functions (`np.linalg.norm`, `np.arccos`).
-/

namespace PoseRehab

/-- `NUM_JOINTS = 24` (both pose-estimation scripts). -/
def NUM_JOINTS : ℕ := 24

/-- `IMG_WIDTH = 1920`. -/
def IMG_WIDTH : ℚ := 1920

/-- `IMG_HEIGHT = 1080`. -/
def IMG_HEIGHT : ℚ := 1080

/-- `POSE_3D_SCALE = 1000.0`. -/
def POSE_3D_SCALE : ℚ := 1000

/-! ## Fitness corpus: `normalize_coordinates`
(`src/scripts/preprocess_fitness_dataset.py`, lines 330-379).

Coordinates are a (24,2) array, modelled as `Fin 24 → ℚ × ℚ`; the
visibility array is `Fin 24 → ℚ` and the code's mask is `visibility > 0`.
The hip-centre branch calls `np.linalg.norm`, a real square root; the
square-root operation is passed in as a parameter `sq` (none of the
verified properties depend on its value). -/

/-- Index of `'Left Hip'` in `KEYPOINT_NAMES`. -/
def LEFT_HIP : Fin 24 := 11

/-- Index of `'Right Hip'` in `KEYPOINT_NAMES`. -/
def RIGHT_HIP : Fin 24 := 12

/-- The set of visible joint indices (`visible_mask = visibility > 0`). -/
def visibleSet (visibility : Fin 24 → ℚ) : Finset (Fin 24) :=
  Finset.univ.filter (fun i => 0 < visibility i)

/-- The minimum of the visible joints' values of `f` (`visible_coords.min(axis=0)`). -/
def visMin (visibility : Fin 24 → ℚ) (h : (visibleSet visibility).Nonempty)
    (f : Fin 24 → ℚ) : ℚ :=
  (visibleSet visibility).inf' h f

/-- The maximum of the visible joints' values of `f` (`visible_coords.max(axis=0)`). -/
def visMax (visibility : Fin 24 → ℚ) (h : (visibleSet visibility).Nonempty)
    (f : Fin 24 → ℚ) : ℚ :=
  (visibleSet visibility).sup' h f

/-- `range_xy = np.where(range_xy > 0, range_xy, 1.0)` on one axis. -/
def bboxRange (r : ℚ) : ℚ :=
  if 0 < r then r else 1

/-- The `'bbox'` branch of `normalize_coordinates`: rescale the visible
joints by the visible bounding box, leave invisible joints untouched. -/
def bboxNormalize (coordinates : Fin 24 → ℚ × ℚ) (visibility : Fin 24 → ℚ)
    (h : (visibleSet visibility).Nonempty) : Fin 24 → ℚ × ℚ :=
  let minX := visMin visibility h (fun i => (coordinates i).1)
  let minY := visMin visibility h (fun i => (coordinates i).2)
  let rangeX := bboxRange (visMax visibility h (fun i => (coordinates i).1) - minX)
  let rangeY := bboxRange (visMax visibility h (fun i => (coordinates i).2) - minY)
  fun i =>
    if 0 < visibility i then
      (((coordinates i).1 - minX) / rangeX, ((coordinates i).2 - minY) / rangeY)
    else coordinates i

/-- The both-hips-visible part of the `'hip_center'` branch: recentre on
the hip midpoint, rescale by the hip distance (`sq` is the square root
of `np.linalg.norm`), flooring the scale at `1e-6`. -/
def hipCenterNormalize (sq : ℚ → ℚ) (coordinates : Fin 24 → ℚ × ℚ)
    (visibility : Fin 24 → ℚ) : Fin 24 → ℚ × ℚ :=
  let lh := coordinates LEFT_HIP
  let rh := coordinates RIGHT_HIP
  let cx := (lh.1 + rh.1) / 2
  let cy := (lh.2 + rh.2) / 2
  let scale0 := sq ((rh.1 - lh.1) ^ 2 + (rh.2 - lh.2) ^ 2)
  let scale := if scale0 < 1 / 1000000 then 1 else scale0
  fun i =>
    if 0 < visibility i then
      (((coordinates i).1 - cx) / scale, ((coordinates i).2 - cy) / scale)
    else coordinates i

/-- `normalize_coordinates(coordinates, visibility, method)`:
`normalized = coordinates.copy()`; if no joint is visible the copy is
returned; `'bbox'` rescales the visible joints by the visible bounding
box (axes of zero extent use extent 1); `'hip_center'` recentres on the
hip midpoint and rescales by the hip distance when both hips are
visible, otherwise leaves the copy untouched; any other method string
returns the copy. -/
def normalize_coordinates (sq : ℚ → ℚ) (coordinates : Fin 24 → ℚ × ℚ)
    (visibility : Fin 24 → ℚ) (method : String) : Fin 24 → ℚ × ℚ :=
  if h : (visibleSet visibility).Nonempty then
    if method = "bbox" then
      bboxNormalize coordinates visibility h
    else if method = "hip_center" then
      if 0 < visibility LEFT_HIP ∧ 0 < visibility RIGHT_HIP then
        hipCenterNormalize sq coordinates visibility
      else coordinates
    else coordinates
  else coordinates

/-! ## Fitness corpus: `is_correct`
(`src/scripts/preprocess_fitness_dataset.py`, lines 295-298).

`is_correct = all(cond.get('value', False) for cond in conditions) if conditions else False`.
A condition is modelled by its optional boolean `value` field;
`cond.get('value', False)` is `Option.getD false`. -/

/-- The derived correctness label of a parsed fitness sample. -/
def is_correct (conditions : List (Option Bool)) : Bool :=
  if conditions.isEmpty then false
  else conditions.all (fun c => c.getD false)

/-! ## Pose-estimation corpus: record parsers.

Inputs are abstracted to the data the functions inspect: the `2d_pos`
list is a list of `(x, y)` pairs, the `3d_pos` list a list of
`(x, y, z)` triples (the two nested JSON layouts both reduce to this),
and the file stem is the list of its `'_'`-separated parts. -/

/-- A parsed 2D record: identity fields plus the normalized
(divided by image size) coordinate list. -/
structure Rec2D where
  action : String
  actor : String
  frame : String
  coords2d : List (ℚ × ℚ)
deriving DecidableEq, Repr

/-- `center = coords_3d.mean(axis=0)`: the per-sample centroid. -/
def centroid3d (pos : List (ℚ × ℚ × ℚ)) : ℚ × ℚ × ℚ :=
  ((pos.map (fun p => p.1)).sum / pos.length,
   (pos.map (fun p => p.2.1)).sum / pos.length,
   (pos.map (fun p => p.2.2)).sum / pos.length)

/-- Shared 3D normalization (both `parse_3d_json` variants):
`center = coords_3d.mean(axis=0)`; `coords_3d = (coords_3d - center) / POSE_3D_SCALE`. -/
def normalize3d (pos : List (ℚ × ℚ × ℚ)) : List (ℚ × ℚ × ℚ) :=
  let c := centroid3d pos
  pos.map (fun p =>
    ((p.1 - c.1) / POSE_3D_SCALE, (p.2.1 - c.2.1) / POSE_3D_SCALE,
     (p.2.2 - c.2.2) / POSE_3D_SCALE))

/-- `parse_2d_json` of `src/ml/preprocess_full.py` (lines 50-86):
returns `None` when the coordinate list length differs from
`NUM_JOINTS` or the file stem has fewer than 4 parts; otherwise builds
the record from stem parts 0, 1, 3 and the image-normalized flattened
coordinates. -/
def parse_2d_json_full (pos2d : List (ℚ × ℚ)) (stemParts : List String) : Option Rec2D :=
  if pos2d.length ≠ NUM_JOINTS then none
  else
    let coords := pos2d.map (fun p => (p.1 / IMG_WIDTH, p.2 / IMG_HEIGHT))
    if stemParts.length < 4 then none
    else some { action := stemParts.getD 0 ""
                actor := stemParts.getD 1 ""
                frame := stemParts.getD 3 ""
                coords2d := coords }

/-- `parse_3d_json` of `src/ml/preprocess_full.py` (lines 89-122):
returns `None` when the extracted coordinate list length differs from
`NUM_JOINTS`; otherwise returns the centred and scaled coordinates. -/
def parse_3d_json_full (pos3d : List (ℚ × ℚ × ℚ)) : Option (List (ℚ × ℚ × ℚ)) :=
  if pos3d.length ≠ NUM_JOINTS then none
  else some (normalize3d pos3d)

/-- `parse_2d_json` of `src/ml/preprocess.py` (lines 36-55): no joint
count check.  The caller-visible failure mode is the exception raised
by `coords_2d[:, 0]` on an empty (0,)-shaped array, modelled as `none`;
every non-empty list of pairs yields a record with that many joints. -/
def parse_2d_json_v1 (pos2d : List (ℚ × ℚ)) (actionId actorId frameNo : String) :
    Option Rec2D :=
  if pos2d.isEmpty then none
  else some { action := actionId
              actor := actorId
              frame := frameNo
              coords2d := pos2d.map (fun p => (p.1 / IMG_WIDTH, p.2 / IMG_HEIGHT)) }

/-- `parse_3d_json` of `src/ml/preprocess.py` (lines 58-100): no joint
count check; the coordinate list is centred and scaled whatever its
length. -/
def parse_3d_json_v1 (pos3d : List (ℚ × ℚ × ℚ)) : List (ℚ × ℚ × ℚ) :=
  normalize3d pos3d

/-! ## Pose-estimation corpus: cross-corpus matcher.

The 3D label root is abstracted to its list of sub-directories in
iteration order, each with its list of file names. -/

/-- The sub-directories of the 3D label root: `(folder name, files)`. -/
abbrev Dir3D := List (String × List String)

/-- `folder/file` exists under the root. -/
def dirHasFile (root : Dir3D) (folder file : String) : Bool :=
  match root.find? (fun d => d.1 = folder) with
  | some d => d.2.contains file
  | none => false

/-- The 3D file name pattern `3D_{action}_{actor}_{frame}.json`. -/
def pattern3d (action actor frame : String) : String :=
  "3D_" ++ action ++ "_" ++ actor ++ "_" ++ frame ++ ".json"

/-- `find_matching_3d_file` of `src/ml/preprocess.py` (lines 103-122):
first the direct path `{action}_{actor}/3D_{action}_{actor}_{frame}.json`,
then a linear scan over all sub-directories, else `None`. -/
def find_matching_3d_file (root : Dir3D) (action actor frame : String) :
    Option (String × String) :=
  let pat := pattern3d action actor frame
  let actorFolder := action ++ "_" ++ actor
  if dirHasFile root actorFolder pat then some (actorFolder, pat)
  else
    match root.find? (fun d => d.2.contains pat) with
    | some d => some (d.1, pat)
    | none => none

/-- `get_3d_file_path` of `src/ml/preprocess_full.py` (lines 125-141):
only the direct path is tried; a miss yields `None`. -/
def get_3d_file_path (root : Dir3D) (action actor frame : String) :
    Option (String × String) :=
  let folderName := action ++ "_" ++ actor
  let fileName := pattern3d action actor frame
  if dirHasFile root folderName fileName then some (folderName, fileName)
  else none

/-! ## Pose-estimation corpus: pipeline passes.

One input file is abstracted to the outcome of each fallible step on
it: the 2D parse result, the 3D path resolution result, and the 3D
parse result (each `none` on failure, carrying the produced data on
success). -/

/-- The per-file step outcomes seen by a pipeline pass. -/
structure FileSteps where
  parse2d : Option (List ℚ)
  find3d : Option Unit
  parse3d : Option (List ℚ)
deriving DecidableEq, Repr

/-- Accumulator of `process_dataset` in `src/ml/preprocess_full.py`
(lines 173-215): collected arrays, the match count, and the three
per-reason skip counters. -/
structure FullState where
  data2d : List (List ℚ)
  data3d : List (List ℚ)
  matched : ℕ
  skipped2d : ℕ
  skipped3dNotFound : ℕ
  skipped3dParse : ℕ
deriving DecidableEq, Repr

/-- Initial accumulator of `process_dataset`. -/
def FullState.init : FullState := ⟨[], [], 0, 0, 0, 0⟩

/-- Total of the match counter and the three per-reason skip counters. -/
def FullState.tally (s : FullState) : ℕ :=
  s.matched + s.skipped2d + s.skipped3dNotFound + s.skipped3dParse

/-- One loop iteration of `process_dataset`
(`src/ml/preprocess_full.py`, lines 181-209). -/
def processFileFull (s : FullState) (f : FileSteps) : FullState :=
  match f.parse2d with
  | none => { s with skipped2d := s.skipped2d + 1 }
  | some c2 =>
    match f.find3d with
    | none => { s with skipped3dNotFound := s.skipped3dNotFound + 1 }
    | some _ =>
      match f.parse3d with
      | none => { s with skipped3dParse := s.skipped3dParse + 1 }
      | some c3 =>
        { s with data2d := s.data2d ++ [c2], data3d := s.data3d ++ [c3],
                 matched := s.matched + 1 }

/-- The loop of `process_dataset` over all 2D files. -/
def process_dataset (files : List FileSteps) : FullState :=
  files.foldl processFileFull FullState.init

/-- Accumulator of `preprocess_data` in `src/ml/preprocess.py`
(lines 154-189): collected arrays and `matched_count` — the loop keeps
no skip counters. -/
structure V1State where
  data2d : List (List ℚ)
  data3d : List (List ℚ)
  matchedCount : ℕ
deriving DecidableEq, Repr

/-- Initial accumulator of `preprocess_data`. -/
def V1State.init : V1State := ⟨[], [], 0⟩

/-- One loop iteration of `preprocess_data`
(`src/ml/preprocess.py`, lines 161-188): every failure path is a bare
`continue` (a raised parse exception is caught and skipped). -/
def processFileV1 (s : V1State) (f : FileSteps) : V1State :=
  match f.parse2d with
  | none => s
  | some c2 =>
    match f.find3d with
    | none => s
    | some _ =>
      match f.parse3d with
      | none => s
      | some c3 =>
        { data2d := s.data2d ++ [c2], data3d := s.data3d ++ [c3],
          matchedCount := s.matchedCount + 1 }

/-- The loop of `preprocess_data` over all 2D files. -/
def preprocess_data (files : List FileSteps) : V1State :=
  files.foldl processFileV1 V1State.init

/-! ## Fitness corpus: `split_dataset`, small-sample branch
(`src/scripts/preprocess_fitness_dataset.py`, lines 586-628).

The seeded `np.random.shuffle` is abstracted to an arbitrary shuffled
index list `perm`; the branch then slices `perm` by Python slice
semantics (negative bounds wrap, everything clamps to `[0, len]`). -/

/-- Python `int()` on a rational: truncation toward zero. -/
def int_trunc (q : ℚ) : ℤ :=
  if 0 ≤ q then ⌊q⌋ else -⌊-q⌋

/-- Normalize a Python slice bound against a list of length `n`. -/
def pyBound (n : ℕ) (i : ℤ) : ℕ :=
  min (if i < 0 then i + n else i).toNat n

/-- Python `l[a:b]` (step 1). -/
def pySlice {α : Type} (l : List α) (a b : ℤ) : List α :=
  (l.take (pyBound l.length b)).drop (pyBound l.length a)

/-- `n_test = max(1, int(n_samples * test_size))` (and likewise `n_val`). -/
def clampedCount (n : ℕ) (frac : ℚ) : ℤ :=
  max 1 (int_trunc (n * frac))

/-- The three partitions produced by the `n_samples < 20` branch of
`split_dataset`, applied to the shuffled index list `perm`. -/
def simple_split {α : Type} (perm : List α) (test_size val_size : ℚ) :
    List α × List α × List α :=
  let n : ℕ := perm.length
  let nTest := clampedCount n test_size
  let nVal := clampedCount n val_size
  let nTrain : ℤ := (n : ℤ) - nTest - nVal
  (pySlice perm 0 nTrain,
   pySlice perm nTrain (nTrain + nVal),
   pySlice perm (nTrain + nVal) n)

/-! ## Fitness corpus: `extract_joint_angles`
(`src/scripts/preprocess_fitness_dataset.py`, lines 386-434).

`calc_angle` applies `np.linalg.norm` and `np.arccos`, so coordinates
are modelled in `ℝ`; the visibility array keeps the rational model
(its values are only compared against 0). -/

/-- `calc_angle(p1, p2, p3)`: the angle at `p2`, via
`arccos(clip(v1·v2 / (|v1||v2| + 1e-8), -1, 1))`. -/
noncomputable def calc_angle (p1 p2 p3 : ℝ × ℝ) : ℝ :=
  let v1 : ℝ × ℝ := (p1.1 - p2.1, p1.2 - p2.2)
  let v2 : ℝ × ℝ := (p3.1 - p2.1, p3.2 - p2.2)
  let dot := v1.1 * v2.1 + v1.2 * v2.2
  let n1 := Real.sqrt (v1.1 ^ 2 + v1.2 ^ 2)
  let n2 := Real.sqrt (v2.1 ^ 2 + v2.2 ^ 2)
  let cosAngle := dot / (n1 * n2 + 1 / 100000000)
  Real.arccos (max (-1) (min 1 cosAngle))

/-- `angle_definitions`: the 10 fixed joint triplets `(p1, vertex, p3)`,
as indices into `KEYPOINT_NAMES`. -/
def angle_definitions : List (Fin 24 × Fin 24 × Fin 24) :=
  [(11, 13, 15), (12, 14, 16), (5, 7, 9), (6, 8, 10), (7, 5, 11),
   (8, 6, 12), (5, 11, 13), (6, 12, 14), (5, 17, 6), (11, 21, 12)]

/-- `extract_joint_angles(coordinates, visibility)`: per triplet, the
angle at the vertex when all three joints are visible, else `0.0`. -/
noncomputable def extract_joint_angles (coordinates : Fin 24 → ℝ × ℝ)
    (visibility : Fin 24 → ℚ) : List ℝ :=
  angle_definitions.map (fun t =>
    if 0 < visibility t.1 ∧ 0 < visibility t.2.1 ∧ 0 < visibility t.2.2 then
      calc_angle (coordinates t.1) (coordinates t.2.1) (coordinates t.2.2)
    else 0)

/-! ## Theorems -/

/-- C3: `is_correct` is true iff the condition list is non-empty and
every condition's value (missing values defaulting to false) is true;
in particular the empty condition list yields `false`. -/
theorem is_correct_iff_nonempty_all_true :
    (∀ conditions : List (Option Bool),
        is_correct conditions = true ↔
          conditions ≠ [] ∧ ∀ c ∈ conditions, c.getD false = true) ∧
    is_correct [] = false := by
  refine ⟨fun cs => ?_, rfl⟩
  cases cs with
  | nil => simp [is_correct]
  | cons a t => simp [is_correct, List.all_eq_true]

/-- C10: when every joint is invisible, `normalize_coordinates` returns
the coordinates unchanged, whatever the method string. -/
theorem normalize_coordinates_all_invisible (sq : ℚ → ℚ)
    (coordinates : Fin 24 → ℚ × ℚ) (visibility : Fin 24 → ℚ) (method : String)
    (h : ∀ i, visibility i ≤ 0) :
    normalize_coordinates sq coordinates visibility method = coordinates := by
  have hns : ¬ (visibleSet visibility).Nonempty := by
    rw [visibleSet, Finset.filter_nonempty_iff]
    push_neg
    intro i _
    exact h i
  simp only [normalize_coordinates]
  rw [dif_neg hns]

/-- Witness for C10 at a concrete all-invisible input. -/
theorem normalize_coordinates_all_invisible_w :
    normalize_coordinates (fun q => q) (fun _ => ((3 : ℚ), (4 : ℚ)))
        (fun _ => 0) "bbox" = fun _ => ((3 : ℚ), (4 : ℚ)) :=
  normalize_coordinates_all_invisible _ _ _ _ (fun _ => le_refl 0)

/-- C9: hip-centre normalization is the identity whenever the left or
right hip joint is invisible. -/
theorem hip_center_skipped_when_hip_invisible (sq : ℚ → ℚ)
    (coordinates : Fin 24 → ℚ × ℚ) (visibility : Fin 24 → ℚ)
    (h : visibility LEFT_HIP ≤ 0 ∨ visibility RIGHT_HIP ≤ 0) :
    normalize_coordinates sq coordinates visibility "hip_center" = coordinates := by
  have hc : ¬ (0 < visibility LEFT_HIP ∧ 0 < visibility RIGHT_HIP) := by
    rcases h with h | h
    · exact fun hh => absurd hh.1 (not_lt.mpr h)
    · exact fun hh => absurd hh.2 (not_lt.mpr h)
  simp only [normalize_coordinates]
  split
  · simp [hc]
  · rfl

/-- Witness for C9 at a concrete input with an invisible left hip. -/
theorem hip_center_skipped_w :
    normalize_coordinates (fun q => q) (fun _ => ((5 : ℚ), (6 : ℚ)))
        (fun i => if i = LEFT_HIP then 0 else 1) "hip_center"
      = fun _ => ((5 : ℚ), (6 : ℚ)) :=
  hip_center_skipped_when_hip_invisible _ _ _ (Or.inl (by simp))

/-- C1 counterexample: the `src/ml/preprocess.py` parser variants
perform no joint-count validation — a 23-pair `2d_pos` list yields a
constructed record with 23 joints, and a 23-triple `3d_pos` list yields
a 23-joint coordinate list, refuting the claim for those variants. -/
theorem parse_v1_accepts_23_joints :
    ((parse_2d_json_v1 (List.replicate 23 ((0 : ℚ), (0 : ℚ))) "70" "M180D" "0").map
        (fun r => r.coords2d.length) = some 23) ∧
    (parse_3d_json_v1 (List.replicate 23 ((0 : ℚ), (0 : ℚ), (0 : ℚ)))).length = 23 := by
  constructor <;> rfl

/-- C1 amended: in `src/ml/preprocess_full.py` both parsers return
`None` when the coordinate list length differs from 24, so every
constructed record has exactly 24 joints; the `src/ml/preprocess.py`
parsers perform no such check. -/
theorem parse_full_joint_count :
    (∀ (pos2d : List (ℚ × ℚ)) (stemParts : List String) (r : Rec2D),
        parse_2d_json_full pos2d stemParts = some r →
          r.coords2d.length = NUM_JOINTS) ∧
    (∀ (pos3d : List (ℚ × ℚ × ℚ)) (out : List (ℚ × ℚ × ℚ)),
        parse_3d_json_full pos3d = some out → out.length = NUM_JOINTS) := by
  constructor
  · intro pos2d stemParts r h
    unfold parse_2d_json_full at h
    split at h
    · exact absurd h (by simp)
    · split at h
      · exact absurd h (by simp)
      · next hlen _ =>
        cases h
        simpa using not_ne_iff.mp hlen
  · intro pos3d out h
    unfold parse_3d_json_full at h
    split at h
    · exact absurd h (by simp)
    · next hlen =>
      cases h
      simp only [normalize3d, List.length_map]
      exact not_ne_iff.mp hlen

/-- Witness for the amended C1 at a concrete 24-joint input. -/
theorem parse_full_joint_count_w :
    (Rec2D.mk "70" "M180D" "0"
        (List.replicate 24 ((0 : ℚ) / IMG_WIDTH, (0 : ℚ) / IMG_HEIGHT))).coords2d.length
      = NUM_JOINTS :=
  parse_full_joint_count.1 (List.replicate 24 (0, 0)) ["70", "M180D", "3", "0"] _
    (by simp [parse_2d_json_full, NUM_JOINTS])

/-- C7 counterexample: with the 3D root holding the target file only in
a directory other than `{action}_{actor}`, `find_matching_3d_file`
(`src/ml/preprocess.py`) falls back to the linear scan and finds it,
while `get_3d_file_path` (`src/ml/preprocess_full.py`) performs no
fallback scan and yields not-matched — refuting the claimed resolution
order for that variant. -/
theorem full_matcher_no_fallback :
    find_matching_3d_file [("X_Y", ["3D_A_B_0.json"])] "A" "B" "0"
        = some ("X_Y", "3D_A_B_0.json") ∧
    get_3d_file_path [("X_Y", ["3D_A_B_0.json"])] "A" "B" "0" = none := by
  constructor <;> rfl

/-- C7 amended: `find_matching_3d_file` resolves by direct path
construction first and by linear scan on a direct miss;
`get_3d_file_path` tries only the direct path and yields `None` on a
miss, performing no fallback scan. -/
theorem matcher_resolution_order (root : Dir3D) (action actor frame : String) :
    (dirHasFile root (action ++ "_" ++ actor) (pattern3d action actor frame) = true →
        find_matching_3d_file root action actor frame =
          some (action ++ "_" ++ actor, pattern3d action actor frame)) ∧
    (dirHasFile root (action ++ "_" ++ actor) (pattern3d action actor frame) = false →
        find_matching_3d_file root action actor frame =
          (root.find? (fun d => d.2.contains (pattern3d action actor frame))).map
            (fun d => (d.1, pattern3d action actor frame)) ∧
        get_3d_file_path root action actor frame = none) := by
  constructor
  · intro hdir
    simp only [find_matching_3d_file]
    rw [if_pos hdir]
  · intro hdir
    constructor
    · simp only [find_matching_3d_file]
      rw [if_neg (by simp [hdir])]
      cases hfind : root.find? (fun d => d.2.contains (pattern3d action actor frame)) <;>
        simp
    · simp only [get_3d_file_path]
      rw [if_neg (by simp [hdir])]

/-- Witness for the amended C7: a direct miss makes the full-variant
matcher yield `None`. -/
theorem matcher_resolution_order_w :
    get_3d_file_path [("C_D", ["3D_A_B_1.json"])] "A" "B" "1" = none :=
  ((matcher_resolution_order [("C_D", ["3D_A_B_1.json"])] "A" "B" "1").2 rfl).2

/-- C8 counterexample: in `preprocess_data` (`src/ml/preprocess.py`) a
2D record whose 3D counterpart is not found is dropped with no tally —
the whole final pipeline state is identical with or without the
rejected record, refuting per-reason counting for that variant. -/
theorem v1_unmatched_skip_leaves_no_trace :
    preprocess_data [⟨some [1], some (), some [2]⟩, ⟨some [3], none, none⟩]
      = preprocess_data [⟨some [1], some (), some [2]⟩] := by
  rfl

/-- Each iteration of `process_dataset` raises the combined
matched/skip tally by exactly one. -/
theorem processFileFull_tally (s : FullState) (f : FileSteps) :
    (processFileFull s f).tally = s.tally + 1 := by
  rcases f with ⟨p2, f3, p3⟩
  cases p2 <;> cases f3 <;> cases p3 <;>
    simp [processFileFull, FullState.tally] <;> omega

/-- The combined tally of a `process_dataset` fold grows by the number
of files processed. -/
theorem foldl_tally (files : List FileSteps) (s : FullState) :
    (files.foldl processFileFull s).tally = s.tally + files.length := by
  induction files generalizing s with
  | nil => simp
  | cons f t ih =>
    rw [List.foldl_cons, ih, processFileFull_tally, List.length_cons]
    omega

/-- C8 amended: in `process_dataset` (`src/ml/preprocess_full.py`)
every record is either matched or tallied under exactly one skip
reason (the counters sum to the file count); in `preprocess_data`
(`src/ml/preprocess.py`) any rejected record leaves the loop state
completely unchanged — no counter records it. -/
theorem rejection_tally_spec :
    (∀ files : List FileSteps,
        (process_dataset files).matched + (process_dataset files).skipped2d +
          (process_dataset files).skipped3dNotFound +
          (process_dataset files).skipped3dParse = files.length) ∧
    (∀ (s : V1State) (f : FileSteps),
        f.parse2d = none ∨ f.find3d = none ∨ f.parse3d = none →
          processFileV1 s f = s) := by
  constructor
  · intro files
    have h := foldl_tally files FullState.init
    simpa [process_dataset, FullState.tally, FullState.init] using h
  · intro s f h
    rcases f with ⟨p2, f3, p3⟩
    cases p2 <;> cases f3 <;> cases p3 <;> simp_all [processFileV1]

/-- Witness for the amended C8: an unmatched record leaves the
`preprocess_data` state unchanged. -/
theorem rejection_tally_spec_w :
    processFileV1 V1State.init ⟨some [(1 : ℚ)], none, none⟩ = V1State.init :=
  rejection_tally_spec.2 V1State.init ⟨some [1], none, none⟩ (Or.inr (Or.inl rfl))

/-- Sum of a list after an affine per-element transform
`a ↦ (f a - c) / d`. -/
theorem sum_map_sub_div {α : Type} (l : List α) (f : α → ℚ) (c d : ℚ) :
    (l.map (fun a => (f a - c) / d)).sum = ((l.map f).sum - l.length * c) / d := by
  induction l with
  | nil => simp
  | cons x t ih =>
    simp only [List.map_cons, List.sum_cons, List.length_cons, ih, div_add_div_same]
    push_cast
    ring_nf

/-- C5: every successfully parsed 3D record equals the raw joints with
the per-sample centroid subtracted and divided by `POSE_3D_SCALE`, and
the centroid of the normalized joints is `(0, 0, 0)`. -/
theorem parse_3d_centering (pos out : List (ℚ × ℚ × ℚ))
    (h : parse_3d_json_full pos = some out) :
    out = pos.map (fun p =>
        ((p.1 - (centroid3d pos).1) / POSE_3D_SCALE,
         (p.2.1 - (centroid3d pos).2.1) / POSE_3D_SCALE,
         (p.2.2 - (centroid3d pos).2.2) / POSE_3D_SCALE)) ∧
    centroid3d out = (0, 0, 0) := by
  have hlen : pos.length = NUM_JOINTS := by
    by_contra hne
    simp [parse_3d_json_full, hne] at h
  have hout : out = normalize3d pos := by
    simp [parse_3d_json_full, hlen, NUM_JOINTS] at h
    exact h.symm
  subst hout
  have hn : (pos.length : ℚ) ≠ 0 := by
    rw [hlen]
    norm_num [NUM_JOINTS]
  refine ⟨rfl, ?_⟩
  unfold centroid3d normalize3d
  simp only [List.map_map, List.length_map, Function.comp_def, Prod.mk.injEq]
  refine ⟨?_, ?_, ?_⟩ <;>
  · rw [sum_map_sub_div]
    unfold centroid3d
    rw [mul_div_cancel₀ _ hn]
    simp

/-- Witness for C5: 24 identical raw joints at `(100, 200, 300)`
normalize to joints whose centroid is the origin. -/
theorem parse_3d_centering_w :
    centroid3d (normalize3d (List.replicate 24 ((100 : ℚ), (200 : ℚ), (300 : ℚ))))
      = (0, 0, 0) :=
  (parse_3d_centering (List.replicate 24 ((100 : ℚ), (200 : ℚ), (300 : ℚ)))
    (normalize3d (List.replicate 24 ((100 : ℚ), (200 : ℚ), (300 : ℚ))))
    (by simp [parse_3d_json_full, NUM_JOINTS])).2

/-- One axis of the bbox rescale stays inside the unit interval. -/
theorem bbox_axis_mem_unit {a lo hi : ℚ} (h1 : lo ≤ a) (h2 : a ≤ hi) :
    0 ≤ (a - lo) / bboxRange (hi - lo) ∧ (a - lo) / bboxRange (hi - lo) ≤ 1 := by
  unfold bboxRange
  split
  · next hpos =>
    refine ⟨div_nonneg (by linarith) (le_of_lt hpos), ?_⟩
    rw [div_le_one hpos]
    linarith
  · next hnp =>
    have h0 : hi - lo ≤ 0 := not_lt.mp hnp
    have hz : a - lo = 0 := by linarith
    rw [hz, zero_div]
    norm_num

/-- C2: with at least one visible joint, bbox normalization maps every
visible keypoint into `[0, 1]` on both axes (a zero-extent axis is
rescaled by 1) and leaves every invisible keypoint unchanged. -/
theorem bbox_normalization_bounds (sq : ℚ → ℚ) (coordinates : Fin 24 → ℚ × ℚ)
    (visibility : Fin 24 → ℚ) (hvis : ∃ i, 0 < visibility i) :
    (∀ i, 0 < visibility i →
        0 ≤ (normalize_coordinates sq coordinates visibility "bbox" i).1 ∧
        (normalize_coordinates sq coordinates visibility "bbox" i).1 ≤ 1 ∧
        0 ≤ (normalize_coordinates sq coordinates visibility "bbox" i).2 ∧
        (normalize_coordinates sq coordinates visibility "bbox" i).2 ≤ 1) ∧
    (∀ i, visibility i ≤ 0 →
        normalize_coordinates sq coordinates visibility "bbox" i = coordinates i) := by
  have h : (visibleSet visibility).Nonempty := by
    obtain ⟨i, hi⟩ := hvis
    exact ⟨i, by simp [visibleSet, hi]⟩
  have heq : normalize_coordinates sq coordinates visibility "bbox"
      = bboxNormalize coordinates visibility h := by
    simp only [normalize_coordinates]
    rw [dif_pos h, if_pos trivial]
  rw [heq]
  constructor
  · intro i hi
    have hmem : i ∈ visibleSet visibility := by simp [visibleSet, hi]
    have hx1 : visMin visibility h (fun j => (coordinates j).1) ≤ (coordinates i).1 :=
      Finset.inf'_le (fun j => (coordinates j).1) hmem
    have hx2 : (coordinates i).1 ≤ visMax visibility h (fun j => (coordinates j).1) :=
      Finset.le_sup' (fun j => (coordinates j).1) hmem
    have hy1 : visMin visibility h (fun j => (coordinates j).2) ≤ (coordinates i).2 :=
      Finset.inf'_le (fun j => (coordinates j).2) hmem
    have hy2 : (coordinates i).2 ≤ visMax visibility h (fun j => (coordinates j).2) :=
      Finset.le_sup' (fun j => (coordinates j).2) hmem
    have hX := bbox_axis_mem_unit hx1 hx2
    have hY := bbox_axis_mem_unit hy1 hy2
    simp only [bboxNormalize]
    rw [if_pos hi]
    exact ⟨hX.1, hX.2, hY.1, hY.2⟩
  · intro i hinv
    simp only [bboxNormalize]
    rw [if_neg (not_lt.mpr hinv)]

/-- Witness for C2 at a concrete fully visible input. -/
theorem bbox_normalization_bounds_w :
    0 ≤ (normalize_coordinates (fun q => q) (fun j => ((j : ℚ), (j : ℚ) * 2))
          (fun _ => 1) "bbox" 0).1 ∧
    (normalize_coordinates (fun q => q) (fun j => ((j : ℚ), (j : ℚ) * 2))
          (fun _ => 1) "bbox" 0).1 ≤ 1 :=
  have H := bbox_normalization_bounds (fun q => q) (fun j => ((j : ℚ), (j : ℚ) * 2))
    (fun _ => 1) ⟨0, by norm_num⟩
  ⟨(H.1 0 (by norm_num)).1, (H.1 0 (by norm_num)).2.1⟩

/-- C6 counterexample: a dataset of 2 samples (< 20) with the default
fractions gives `n_test = n_val = 1` and `n_train = 0`, so the train
partition receives no sample — refuting "each of the three partitions
receives at least 1 sample". -/
theorem simple_split_train_empty :
    ([0, 1] : List ℕ).length < 20 ∧
    (simple_split ([0, 1] : List ℕ) (1 / 10) (1 / 10)).1 = [] := by
  constructor
  · norm_num
  · norm_num [simple_split, clampedCount, int_trunc, pySlice, pyBound]

/-- A slice bound already inside `[0, n]` normalizes to itself. -/
theorem pyBound_eq (n : ℕ) (k : ℤ) (h0 : 0 ≤ k) (hn : k ≤ (n : ℤ)) :
    pyBound n k = k.toNat := by
  unfold pyBound
  rw [if_neg (not_lt.mpr h0)]
  omega

/-- C6 amended: for `n < 20` the splitter slices the shuffled samples
by count into train/val/test with `n_test = max(1, int(n*test_size))`,
`n_val = max(1, int(n*val_size))` and the remaining `n - n_test - n_val`
in train; the three partitions reassemble the shuffled input, and each
receives at least one sample only under the extra proviso
`n_test + n_val < n` (for very small `n`, e.g. `n = 2`, train is empty). -/
theorem simple_split_partition {α : Type} (perm : List α) (test_size val_size : ℚ)
    (hn : perm.length < 20)
    (htrain : 1 ≤ (perm.length : ℤ) - clampedCount perm.length test_size
        - clampedCount perm.length val_size) :
    (simple_split perm test_size val_size).1.length
        = ((perm.length : ℤ) - clampedCount perm.length test_size
            - clampedCount perm.length val_size).toNat ∧
    (simple_split perm test_size val_size).2.1.length
        = (clampedCount perm.length val_size).toNat ∧
    (simple_split perm test_size val_size).2.2.length
        = (clampedCount perm.length test_size).toNat ∧
    1 ≤ (simple_split perm test_size val_size).1.length ∧
    1 ≤ (simple_split perm test_size val_size).2.1.length ∧
    1 ≤ (simple_split perm test_size val_size).2.2.length ∧
    (simple_split perm test_size val_size).1 ++ (simple_split perm test_size val_size).2.1
        ++ (simple_split perm test_size val_size).2.2 = perm := by
  have hT : 1 ≤ clampedCount perm.length test_size := le_max_left 1 _
  have hV : 1 ≤ clampedCount perm.length val_size := le_max_left 1 _
  set n := perm.length with hnn
  set nT := clampedCount n test_size with hnT
  set nV := clampedCount n val_size with hnV
  set nTr : ℤ := (n : ℤ) - nT - nV with hnTr
  have hb0 : pyBound n 0 = 0 := by
    rw [pyBound_eq n 0 le_rfl (by omega)]
    rfl
  have hbTr : pyBound n nTr = nTr.toNat := pyBound_eq n nTr (by omega) (by omega)
  have hbTV : pyBound n (nTr + nV) = (nTr + nV).toNat :=
    pyBound_eq n (nTr + nV) (by omega) (by omega)
  have hbN : pyBound n n = n := by
    rw [pyBound_eq n n (by omega) le_rfl]
    omega
  have hsplit : simple_split perm test_size val_size =
      (perm.take nTr.toNat,
       (perm.take (nTr + nV).toNat).drop nTr.toNat,
       perm.drop (nTr + nV).toNat) := by
    simp only [simple_split, pySlice, ← hnn, ← hnT, ← hnV, ← hnTr, hb0, hbTr, hbTV, hbN,
      List.drop_zero]
    rw [hnn, List.take_length]
  rw [hsplit]
  have hle1 : nTr.toNat ≤ (nTr + nV).toNat := by omega
  have hle2 : (nTr + nV).toNat ≤ n := by omega
  refine ⟨?_, ?_, ?_, ?_, ?_, ?_, ?_⟩
  · rw [List.length_take]
    omega
  · rw [List.length_drop, List.length_take]
    omega
  · rw [List.length_drop]
    omega
  · rw [List.length_take]
    omega
  · rw [List.length_drop, List.length_take]
    omega
  · rw [List.length_drop]
    omega
  · rw [List.drop_take]
    have hab : nTr.toNat + ((nTr + nV).toNat - nTr.toNat) = (nTr + nV).toNat := by omega
    calc perm.take nTr.toNat ++ (perm.drop nTr.toNat).take ((nTr + nV).toNat - nTr.toNat)
          ++ perm.drop (nTr + nV).toNat
        = perm.take (nTr.toNat + ((nTr + nV).toNat - nTr.toNat))
            ++ perm.drop (nTr + nV).toNat := by
          rw [List.take_add]
      _ = perm.take ((nTr + nV).toNat) ++ perm.drop ((nTr + nV).toNat) := by rw [hab]
      _ = perm := List.take_append_drop _ perm

/-- Witness for the amended C6: 4 samples split 2/1/1 and reassemble. -/
theorem simple_split_partition_w :
    (simple_split ([0, 1, 2, 3] : List ℕ) (1 / 10) (1 / 10)).1
        ++ (simple_split ([0, 1, 2, 3] : List ℕ) (1 / 10) (1 / 10)).2.1
        ++ (simple_split ([0, 1, 2, 3] : List ℕ) (1 / 10) (1 / 10)).2.2
      = [0, 1, 2, 3] :=
  (simple_split_partition ([0, 1, 2, 3] : List ℕ) (1 / 10) (1 / 10) (by norm_num)
    (by norm_num [clampedCount, int_trunc])).2.2.2.2.2.2

/-- The epsilon-augmented denominator keeps the clamped cosine strictly
inside `(-1, 1)`, so `calc_angle` always lies strictly between `0` and
`π`. -/
theorem calc_angle_pos_lt_pi (p1 p2 p3 : ℝ × ℝ) :
    0 < calc_angle p1 p2 p3 ∧ calc_angle p1 p2 p3 < Real.pi := by
  simp only [calc_angle]
  have hs1 : (0:ℝ) ≤ (p1.1 - p2.1) ^ 2 + (p1.2 - p2.2) ^ 2 := by positivity
  have hs2 : (0:ℝ) ≤ (p3.1 - p2.1) ^ 2 + (p3.2 - p2.2) ^ 2 := by positivity
  set n1 := Real.sqrt ((p1.1 - p2.1) ^ 2 + (p1.2 - p2.2) ^ 2) with hn1
  set n2 := Real.sqrt ((p3.1 - p2.1) ^ 2 + (p3.2 - p2.2) ^ 2) with hn2
  set dot := (p1.1 - p2.1) * (p3.1 - p2.1) + (p1.2 - p2.2) * (p3.2 - p2.2) with hdot
  have hn1n : 0 ≤ n1 := Real.sqrt_nonneg _
  have hn2n : 0 ≤ n2 := Real.sqrt_nonneg _
  have hprod : 0 ≤ n1 * n2 := mul_nonneg hn1n hn2n
  have hd : (0:ℝ) < n1 * n2 + 1 / 100000000 := by positivity
  have hsq : (n1 * n2) ^ 2
      = ((p1.1 - p2.1) ^ 2 + (p1.2 - p2.2) ^ 2)
          * ((p3.1 - p2.1) ^ 2 + (p3.2 - p2.2) ^ 2) := by
    rw [mul_pow, hn1, hn2, Real.sq_sqrt hs1, Real.sq_sqrt hs2]
  have hcs : dot ^ 2 ≤ (n1 * n2) ^ 2 := by
    rw [hsq, hdot]
    nlinarith [sq_nonneg ((p1.1 - p2.1) * (p3.2 - p2.2) - (p1.2 - p2.2) * (p3.1 - p2.1))]
  have habs : |dot| ≤ n1 * n2 := by
    rw [← Real.sqrt_sq_eq_abs, ← Real.sqrt_sq hprod]
    exact Real.sqrt_le_sqrt hcs
  have hlt : |dot| < n1 * n2 + 1 / 100000000 := by
    have h8 : (0:ℝ) < 1 / 100000000 := by norm_num
    linarith
  have hround : -1 < dot / (n1 * n2 + 1 / 100000000) ∧
      dot / (n1 * n2 + 1 / 100000000) < 1 := by
    rw [← abs_lt, abs_div, abs_of_pos hd]
    exact (div_lt_one hd).mpr hlt
  rw [min_eq_right (le_of_lt hround.2), max_eq_right (le_of_lt hround.1)]
  constructor
  · exact Real.arccos_pos.mpr hround.2
  · exact lt_of_le_of_ne (Real.arccos_le_pi _)
      (fun he => absurd (Real.arccos_eq_pi.mp he) (not_le.mpr hround.1))

/-- C4 counterexample: three collinear, fully visible points
`(0,0), (1,0), (2,0)` (vertex the middle one) give a first angle entry
that is neither `0` nor `π`: the `1e-8` added to the denominator makes
the clamped cosine `-(10^8/(10^8+1))`, strictly inside `(-1, 1)`,
refuting "the computed angle equals 0 or π". -/
theorem collinear_angle_not_boundary :
    (extract_joint_angles
        (fun i => if i = 13 then ((1:ℝ), 0) else if i = 15 then (2, 0) else (0, 0))
        (fun _ => 1))[0]?
      = some (calc_angle ((0:ℝ), (0:ℝ)) (1, 0) (2, 0)) ∧
    calc_angle ((0:ℝ), (0:ℝ)) (1, 0) (2, 0) ≠ 0 ∧
    calc_angle ((0:ℝ), (0:ℝ)) (1, 0) (2, 0) ≠ Real.pi := by
  have hval : calc_angle ((0:ℝ), (0:ℝ)) (1, 0) (2, 0)
      = Real.arccos (-(100000000 / 100000001)) := by
    simp only [calc_angle]
    norm_num
  refine ⟨rfl, ?_, ?_⟩
  · rw [hval]
    intro h
    have h0 := Real.arccos_eq_zero.mp h
    norm_num at h0
  · rw [hval]
    intro h
    have h0 := Real.arccos_eq_pi.mp h
    norm_num at h0

/-- C4 amended: each of the 10 angle entries is exactly `0.0` when any
joint of its triplet is invisible; on a fully visible triplet — in
particular three collinear points — the computed angle lies strictly
between `0` and `π` (arccos never attains its bounds, because the
epsilon-augmented denominator keeps the clamped cosine inside
`(-1, 1)`). -/
theorem extract_joint_angles_entries (coordinates : Fin 24 → ℝ × ℝ)
    (visibility : Fin 24 → ℚ) (k : ℕ) (t : Fin 24 × Fin 24 × Fin 24)
    (ht : angle_definitions[k]? = some t) :
    (¬(0 < visibility t.1 ∧ 0 < visibility t.2.1 ∧ 0 < visibility t.2.2) →
        (extract_joint_angles coordinates visibility)[k]? = some 0) ∧
    ((0 < visibility t.1 ∧ 0 < visibility t.2.1 ∧ 0 < visibility t.2.2) →
        ∃ a, (extract_joint_angles coordinates visibility)[k]? = some a ∧
          0 < a ∧ a < Real.pi) := by
  have hmap : (extract_joint_angles coordinates visibility)[k]?
      = some (if 0 < visibility t.1 ∧ 0 < visibility t.2.1 ∧ 0 < visibility t.2.2 then
          calc_angle (coordinates t.1) (coordinates t.2.1) (coordinates t.2.2)
        else 0) := by
    simp only [extract_joint_angles, List.getElem?_map, ht, Option.map_some']
  constructor
  · intro h
    rw [hmap, if_neg h]
  · intro h
    refine ⟨calc_angle (coordinates t.1) (coordinates t.2.1) (coordinates t.2.2),
      ?_, (calc_angle_pos_lt_pi _ _ _).1, (calc_angle_pos_lt_pi _ _ _).2⟩
    rw [hmap, if_pos h]

/-- Witness for the amended C4: with every joint invisible the first
angle entry is exactly `0`. -/
theorem extract_joint_angles_entries_w :
    (extract_joint_angles (fun _ => ((0:ℝ), (0:ℝ))) (fun _ => 0))[0]? = some 0 :=
  (extract_joint_angles_entries (fun _ => ((0:ℝ), (0:ℝ))) (fun _ => 0) 0 (11, 13, 15)
    rfl).1 (by norm_num)

/-- Witness for C3: a single all-true condition list is labelled
correct via the characterization. -/
theorem is_correct_iff_nonempty_all_true_w :
    is_correct [some true] = true :=
  (is_correct_iff_nonempty_all_true.1 [some true]).mpr
    ⟨by simp, by simp⟩

end PoseRehab
